import Mathlib

/-!
Shallow embedding of `src/Python_Implementation/PID_controller.py`, the
simulation-and-metrics engine `simulate_pid_with_metrics`.

Real scalars of the Python code are modelled as rationals so that the
zero tests on the gains (`Kp == 0` etc.) are exact, as in the source.
The borrowed numerical library (`control`) enters in two ways:
its exact rational-function algebra (`ct.tf`, `*`, `ct.feedback`) is
embedded concretely as polynomial coefficient arithmetic, while its
numerical solvers (`ct.step_response`, `ct.step_info`) are modelled as an
oracle record `SimOracle` whose calls may fail, mirroring the fact that
the Python calls may raise.  A metrics dictionary is an association list
with Python `dict` assignment semantics.
-/

namespace PIDSim

/-- Evaluation of a coefficient list (highest degree first, as in the
source's `ct.tf` convention) at a point. -/
def evalPoly : List ℚ → ℚ → ℚ
  | [], _ => 0
  | c :: cs, s => c * s ^ cs.length + evalPoly cs s

/-- Polynomial addition of highest-degree-first coefficient lists:
the shorter list is padded with leading zeros, as `numpy.polyadd` does. -/
def polyAdd (p q : List ℚ) : List ℚ :=
  let n := max p.length q.length
  List.zipWith (· + ·) (List.replicate (n - p.length) 0 ++ p)
    (List.replicate (n - q.length) 0 ++ q)

/-- Polynomial multiplication (convolution of coefficient lists), as
`numpy.convolve` does for the `control` package's rational arithmetic. -/
def polyMul : List ℚ → List ℚ → List ℚ
  | [], _ => []
  | c :: cs, q => polyAdd (q.map (fun x => c * x) ++ List.replicate cs.length 0) (polyMul cs q)

/-- A rational transfer function: numerator and denominator coefficient
lists, highest degree first. -/
structure TransferFunction where
  num : List ℚ
  den : List ℚ
deriving DecidableEq

/-- `ct.tf(num, den)`: construct a transfer function from coefficient lists. -/
def tf (num den : List ℚ) : TransferFunction := ⟨num, den⟩

/-- Product of transfer functions (`Cs * Gs` in the source): numerators and
denominators are convolved. -/
def tfmul (a b : TransferFunction) : TransferFunction :=
  ⟨polyMul a.num b.num, polyMul a.den b.den⟩

/-- The constant transfer function `1`, the second argument of the source's
`ct.feedback(Cs * Gs, 1)` call. -/
def one : TransferFunction := tf [1] [1]

/-- `ct.feedback(a, b)` with negative sign: the closed loop
`a / (1 + a*b)`, computed on coefficient lists exactly as the `control`
package does: numerator `a.num * b.den`, denominator
`a.den * b.den + a.num * b.num`. -/
def feedback (a b : TransferFunction) : TransferFunction :=
  ⟨polyMul a.num b.den, polyAdd (polyMul a.den b.den) (polyMul a.num b.num)⟩

/-- Modelled from the spec: the borrowed numerical capability
(`ct.step_response` and `ct.step_info` of the `control` package), which the
repository calls but does not implement.  `stepResponse` returns the time
array and response array of a unit step simulation; `step_info` returns a
metrics dictionary (association list) for a settling-time threshold.
Either call may fail (raise), which is modelled with `Except`. -/
structure SimOracle where
  stepResponse : TransferFunction → List ℚ → Except String (List ℚ × List ℚ)
  step_info : TransferFunction → List ℚ → ℚ → Except String (List (String × ℚ))

/-- Python `dict` lookup on an association list (first matching key). -/
def dictGet : List (String × ℚ) → String → Option ℚ
  | [], _ => none
  | p :: ps, k => if p.1 = k then some p.2 else dictGet ps k

/-- Python `dict` assignment `d[k] = v`: replace the value in place if the
key is present, otherwise append the pair at the end. -/
def dictInsert : List (String × ℚ) → String → ℚ → List (String × ℚ)
  | [], k, v => [(k, v)]
  | p :: ps, k, v => if p.1 = k then (k, v) :: ps else p :: dictInsert ps k v

/-- The controller-construction part of `simulate_pid_with_metrics`
(source lines 11-23): the outer all-gains-zero test returns no controller
(the open-loop path assigns the plant directly), and otherwise the nested
`if/elif/elif/else` chain builds the P, PD, PI or full-PID transfer
function. -/
def build_controller (Kp Ki Kd : ℚ) : Option TransferFunction :=
  if Kp = 0 ∧ Ki = 0 ∧ Kd = 0 then
    none
  else if Ki = 0 ∧ Kd = 0 then
    some (tf [Kp] [1])
  else if Ki = 0 ∧ Kd ≠ 0 then
    some (tf [Kd, Kp] [1])
  else if Kd = 0 then
    some (tf [Kp, Ki] [1, 0])
  else
    some (tf [Kd, Kp, Ki] [1, 0])

/-- The `system_to_sim` variable of the source: the plant alone when all
gains are zero, otherwise `ct.feedback(Cs * Gs, 1)`. -/
def system_to_sim (Kp Ki Kd : ℚ) (Gs : TransferFunction) : TransferFunction :=
  match build_controller Kp Ki Kd with
  | none => Gs
  | some Cs => feedback (tfmul Cs Gs) one

/-- The engine `simulate_pid_with_metrics(Kp, Ki, Kd, Gs, t)` of the
source, over a solver oracle `lib`.  The step-response solve runs outside
the `try` block, so its failure propagates.  Inside the `try`, `step_info`
runs with a 2% settling threshold and `SteadyStateError` is then assigned
into the returned dictionary from `response[-1]`; any exception there is
caught and replaced by the zero-filled fallback dictionary, whose own
`response[-1]` access re-raises (propagates) when the response is empty. -/
def simulate_pid_with_metrics (lib : SimOracle) (Kp Ki Kd : ℚ)
    (Gs : TransferFunction) (t : List ℚ) :
    Except String (List ℚ × List ℚ × List (String × ℚ)) :=
  match lib.stepResponse (system_to_sim Kp Ki Kd Gs) t with
  | .error e => .error e
  | .ok (time, response) =>
    match lib.step_info (system_to_sim Kp Ki Kd Gs) t (2 / 100) with
    | .ok info =>
      match response.getLast? with
      | some final_value =>
        .ok (time, response, dictInsert info "SteadyStateError" (1 - final_value))
      | none => .error "IndexError"
    | .error _ =>
      match response.getLast? with
      | some final_value =>
        .ok (time, response,
          [("SteadyStateError", 1 - final_value), ("Overshoot", 0),
            ("SettlingTime", 0), ("RiseTime", 0)])
      | none => .error "IndexError"

/-- Modelled from the spec: the five structural cases of the controller
builder exactly as the claim states them, read in order (first matching
case wins), to be compared with `build_controller` from the source. -/
def build_controller_spec (Kp Ki Kd : ℚ) : Option TransferFunction :=
  if Kp = 0 ∧ Ki = 0 ∧ Kd = 0 then
    none
  else if Ki = 0 ∧ Kd = 0 then
    some (tf [Kp] [1])
  else if Ki = 0 ∧ Kd ≠ 0 then
    some (tf [Kd, Kp] [1])
  else if Kd = 0 ∧ Ki ≠ 0 then
    some (tf [Kp, Ki] [1, 0])
  else
    some (tf [Kd, Kp, Ki] [1, 0])

/-- The example plant of the repository, `G(s) = 5 / (s^2 + 11s + 10)`,
used as a concrete fixture. -/
def plantW : TransferFunction := tf [5] [1, 11, 10]

/-- Fixture oracle whose step response is the constant curve `[1]` and
whose `step_info` succeeds with an empty dictionary. -/
def oracleOkEmptyW : SimOracle where
  stepResponse := fun _ _ => .ok ([0], [1])
  step_info := fun _ _ _ => .ok []

/-- Fixture oracle whose `step_info` succeeds with the usual solver keys
(rise time, settling time, overshoot, and a peak entry). -/
def oracleOkW : SimOracle where
  stepResponse := fun _ _ => .ok ([0], [1])
  step_info := fun _ _ _ =>
    .ok [("RiseTime", 1), ("SettlingTime", 2), ("Overshoot", 3), ("Peak", 4)]

/-- Fixture oracle whose `step_info` raises. -/
def oracleFailW : SimOracle where
  stepResponse := fun _ _ => .ok ([0], [1])
  step_info := fun _ _ _ => .error "numerical failure"

/-- Fixture oracle whose step-response solve itself raises. -/
def oracleCrashW : SimOracle where
  stepResponse := fun _ _ => .error "solver diverged"
  step_info := fun _ _ _ => .ok []

/-! Helper lemmas about polynomial evaluation and dictionaries. -/

theorem evalPoly_replicate_zero_append (n : ℕ) (p : List ℚ) (s : ℚ) :
    evalPoly (List.replicate n 0 ++ p) s = evalPoly p s := by
  induction n with
  | zero => simp
  | succ k ih => simp [List.replicate_succ, evalPoly, ih]

theorem evalPoly_replicate_zero (n : ℕ) (s : ℚ) :
    evalPoly (List.replicate n 0) s = 0 := by
  have h := evalPoly_replicate_zero_append n [] s
  simpa [evalPoly] using h

theorem evalPoly_zipWith_add (p : List ℚ) (s : ℚ) :
    ∀ q : List ℚ, p.length = q.length →
      evalPoly (List.zipWith (· + ·) p q) s = evalPoly p s + evalPoly q s := by
  induction p with
  | nil =>
    intro q hq
    cases q with
    | nil => simp [evalPoly]
    | cons b q => simp at hq
  | cons a p ih =>
    intro q hq
    cases q with
    | nil => simp at hq
    | cons b q =>
      have hlen : p.length = q.length := by simpa using hq
      simp only [List.zipWith, evalPoly, List.length_zipWith, ih q hlen]
      rw [← hlen, min_self]
      ring

theorem evalPoly_polyAdd (p q : List ℚ) (s : ℚ) :
    evalPoly (polyAdd p q) s = evalPoly p s + evalPoly q s := by
  unfold polyAdd
  rw [evalPoly_zipWith_add, evalPoly_replicate_zero_append,
    evalPoly_replicate_zero_append]
  simp only [List.length_append, List.length_replicate]
  omega

theorem evalPoly_map_mul (c : ℚ) (p : List ℚ) (s : ℚ) :
    evalPoly (p.map (fun x => c * x)) s = c * evalPoly p s := by
  induction p with
  | nil => simp [evalPoly]
  | cons a p ih => simp [evalPoly, ih]; ring

theorem evalPoly_append_replicate_zero (p : List ℚ) (n : ℕ) (s : ℚ) :
    evalPoly (p ++ List.replicate n 0) s = evalPoly p s * s ^ n := by
  induction p with
  | nil => simp [evalPoly, evalPoly_replicate_zero]
  | cons a p ih =>
    have hstep : evalPoly ((a :: p) ++ List.replicate n 0) s
        = a * s ^ (p ++ List.replicate n 0).length
          + evalPoly (p ++ List.replicate n 0) s := rfl
    rw [hstep, ih, List.length_append, List.length_replicate, pow_add,
      show evalPoly (a :: p) s = a * s ^ p.length + evalPoly p s from rfl]
    ring

theorem evalPoly_polyMul (p q : List ℚ) (s : ℚ) :
    evalPoly (polyMul p q) s = evalPoly p s * evalPoly q s := by
  induction p with
  | nil => simp [polyMul, evalPoly]
  | cons c cs ih =>
    simp only [polyMul, evalPoly, evalPoly_polyAdd,
      evalPoly_append_replicate_zero, evalPoly_map_mul, ih]
    ring

theorem dictGet_dictInsert_same (d : List (String × ℚ)) (k : String) (v : ℚ) :
    dictGet (dictInsert d k v) k = some v := by
  induction d with
  | nil => simp [dictInsert, dictGet]
  | cons p ps ih =>
    by_cases h : p.1 = k <;> simp [dictInsert, dictGet, h, ih]

theorem dictGet_dictInsert_ne (d : List (String × ℚ)) (k k' : String) (v : ℚ)
    (h : k' ≠ k) : dictGet (dictInsert d k v) k' = dictGet d k' := by
  have hne : ¬ k = k' := fun h' => h h'.symm
  induction d with
  | nil => simp [dictInsert, dictGet, hne]
  | cons p ps ih =>
    by_cases hp : p.1 = k
    · have hp' : ¬ p.1 = k' := by
        rw [hp]
        exact hne
      simp [dictInsert, dictGet, hp, hp', hne]
    · simp [dictInsert, dictGet, hp, ih]

/-- Claim C1: the controller builder implements exactly the five mutually
exclusive structural cases, read in order: all gains zero builds no
controller; `Ki = 0 ∧ Kd = 0` builds `[Kp] / [1]`; `Ki = 0 ∧ Kd ≠ 0`
builds `[Kd, Kp] / [1]` (and in particular not the naively reduced
`[Kd, Kp, 0] / [1, 0]`); `Kd = 0 ∧ Ki ≠ 0` builds `[Kp, Ki] / [1, 0]`;
otherwise `[Kd, Kp, Ki] / [1, 0]`. -/
theorem controller_five_cases (Kp Ki Kd : ℚ) :
    build_controller Kp Ki Kd = build_controller_spec Kp Ki Kd ∧
    (Ki = 0 → Kd ≠ 0 →
      build_controller Kp Ki Kd = some (tf [Kd, Kp] [1]) ∧
      build_controller Kp Ki Kd ≠ some (tf [Kd, Kp, 0] [1, 0])) := by
  constructor
  · unfold build_controller build_controller_spec
    split_ifs <;> first | rfl | tauto
  · intro hKi hKd
    have h1 : ¬(Kp = 0 ∧ Ki = 0 ∧ Kd = 0) := fun h => hKd h.2.2
    have h2 : ¬(Ki = 0 ∧ Kd = 0) := fun h => hKd h.2
    unfold build_controller
    rw [if_neg h1, if_neg h2, if_pos ⟨hKi, hKd⟩]
    refine ⟨rfl, ?_⟩
    simp [tf]

/-- Claim C1 witness: at gains `(3, 0, 2)` the PD case applies and the
constructed transfer function is `[2, 3] / [1]`, not the reduced form. -/
theorem controller_five_cases_witness :
    build_controller 3 0 2 = some (tf [2, 3] [1]) ∧
    build_controller 3 0 2 ≠ some (tf [2, 3, 0] [1, 0]) :=
  (controller_five_cases 3 0 2).2 rfl (by decide)

/-- Claim C7 counterexample: at `Kp = Ki = Kd = 0` the builder takes the
open-loop path and builds no controller at all, so the transfer function
is not the pure gain `[0] / [1]` that the claim (which includes `Kp = 0`
in the P case) would require. -/
theorem p_case_zero_kp_cex :
    build_controller 0 0 0 = none ∧
    build_controller 0 0 0 ≠ some (tf [0] [1]) := by
  decide

/-- Claim C7 (amended): for every gain triple with `Ki = 0`, `Kd = 0` and
`Kp ≠ 0`, the controller built is the pure constant gain `[Kp] / [1]`
(order-0 numerator and denominator). -/
theorem p_case_pure_gain (Kp Ki Kd : ℚ) (hKi : Ki = 0) (hKd : Kd = 0)
    (hKp : Kp ≠ 0) : build_controller Kp Ki Kd = some (tf [Kp] [1]) := by
  have h1 : ¬(Kp = 0 ∧ Ki = 0 ∧ Kd = 0) := fun h => hKp h.1
  unfold build_controller
  rw [if_neg h1, if_pos ⟨hKi, hKd⟩]

/-- Claim C7 witness: at gains `(7, 0, 0)` the builder returns the pure
gain `[7] / [1]`. -/
theorem p_case_pure_gain_witness :
    (7 : ℚ) ≠ 0 ∧ build_controller 7 0 0 = some (tf [7] [1]) :=
  ⟨by decide, p_case_pure_gain 7 0 0 rfl rfl (by decide)⟩

/-- Claim C8: the simulate operation is deterministic: two calls with
identical oracle, gains, plant and time grid give identical results
(time array, response curve and metrics record). -/
theorem simulate_deterministic (lib : SimOracle) (Kp Ki Kd : ℚ)
    (Gs : TransferFunction) (t : List ℚ)
    (out₁ out₂ : Except String (List ℚ × List ℚ × List (String × ℚ)))
    (h₁ : simulate_pid_with_metrics lib Kp Ki Kd Gs t = out₁)
    (h₂ : simulate_pid_with_metrics lib Kp Ki Kd Gs t = out₂) :
    out₁ = out₂ :=
  h₁.symm.trans h₂

/-- Claim C8 witness: two identical concrete calls agree. -/
theorem simulate_deterministic_witness :
    (Except.ok ([0], [1], [("SteadyStateError", (1 : ℚ) - 1)]) :
      Except String (List ℚ × List ℚ × List (String × ℚ))) =
    Except.ok ([0], [1], [("SteadyStateError", (1 : ℚ) - 1)]) :=
  simulate_deterministic oracleOkEmptyW 0 0 0 plantW [0] _ _ rfl rfl

/-- Claim C9: a failure of the step-response solve itself, which runs
before and outside the `try` block, propagates to the caller: the engine
returns that very error and never a zero-filled fallback record. -/
theorem solver_error_propagates (lib : SimOracle) (Kp Ki Kd : ℚ)
    (Gs : TransferFunction) (t : List ℚ) (e : String)
    (h : lib.stepResponse (system_to_sim Kp Ki Kd Gs) t = .error e) :
    simulate_pid_with_metrics lib Kp Ki Kd Gs t = .error e ∧
    ∀ out, simulate_pid_with_metrics lib Kp Ki Kd Gs t ≠ .ok out := by
  have hmain : simulate_pid_with_metrics lib Kp Ki Kd Gs t = .error e := by
    unfold simulate_pid_with_metrics
    rw [h]
  refine ⟨hmain, fun out hout => ?_⟩
  rw [hmain] at hout
  exact Except.noConfusion hout

/-- Claim C9 witness: with an oracle whose step-response solve raises,
the concrete simulate call returns that error. -/
theorem solver_error_propagates_witness :
    simulate_pid_with_metrics oracleCrashW 1 2 3 plantW [0] =
      .error "solver diverged" :=
  (solver_error_propagates oracleCrashW 1 2 3 plantW [0] "solver diverged" rfl).1

/-- Claim C2: if the metrics extraction (`step_info`) raises, the engine
does not propagate the failure: it returns the already-simulated time and
response arrays together with the fallback record
`SteadyStateError = 1 - response[-1]`, `Overshoot = 0`,
`SettlingTime = 0`, `RiseTime = 0`. -/
theorem fallback_on_metrics_failure (lib : SimOracle) (Kp Ki Kd : ℚ)
    (Gs : TransferFunction) (t time response : List ℚ) (e : String) (v : ℚ)
    (hresp : lib.stepResponse (system_to_sim Kp Ki Kd Gs) t = .ok (time, response))
    (hinfo : lib.step_info (system_to_sim Kp Ki Kd Gs) t (2 / 100) = .error e)
    (hlast : response.getLast? = some v) :
    simulate_pid_with_metrics lib Kp Ki Kd Gs t =
      .ok (time, response,
        [("SteadyStateError", 1 - v), ("Overshoot", 0),
          ("SettlingTime", 0), ("RiseTime", 0)]) := by
  simp only [simulate_pid_with_metrics, hresp, hinfo, hlast]

/-- Claim C2 witness: a concrete call whose `step_info` raises returns
the zero-filled fallback record. -/
theorem fallback_on_metrics_failure_witness :
    simulate_pid_with_metrics oracleFailW 0 0 0 plantW [0] =
      .ok ([0], [1],
        [("SteadyStateError", 1 - 1), ("Overshoot", 0),
          ("SettlingTime", 0), ("RiseTime", 0)]) :=
  fallback_on_metrics_failure oracleFailW 0 0 0 plantW [0] [0] [1]
    "numerical failure" 1 rfl rfl rfl

/-- Claim C3: whenever simulate returns, the `SteadyStateError` entry of
the returned metrics record equals `1 - response[-1]`, on both the primary
and the fallback path. -/
theorem steady_state_error_both_paths (lib : SimOracle) (Kp Ki Kd : ℚ)
    (Gs : TransferFunction) (t time response : List ℚ)
    (info : List (String × ℚ)) (v : ℚ)
    (hsim : simulate_pid_with_metrics lib Kp Ki Kd Gs t = .ok (time, response, info))
    (hlast : response.getLast? = some v) :
    dictGet info "SteadyStateError" = some (1 - v) := by
  cases hresp : lib.stepResponse (system_to_sim Kp Ki Kd Gs) t with
  | error e => simp [simulate_pid_with_metrics, hresp] at hsim
  | ok p =>
    obtain ⟨tm, rs⟩ := p
    cases hinfo : lib.step_info (system_to_sim Kp Ki Kd Gs) t (2 / 100) with
    | ok d =>
      cases hl : rs.getLast? with
      | none => simp [simulate_pid_with_metrics, hresp, hinfo, hl] at hsim
      | some fv =>
        simp only [simulate_pid_with_metrics, hresp, hinfo, hl,
          Except.ok.injEq, Prod.mk.injEq] at hsim
        obtain ⟨htm, hrs, hd⟩ := hsim
        subst hrs
        rw [hl] at hlast
        injection hlast with hv
        subst hv
        subst hd
        exact dictGet_dictInsert_same d _ _
    | error e =>
      cases hl : rs.getLast? with
      | none => simp [simulate_pid_with_metrics, hresp, hinfo, hl] at hsim
      | some fv =>
        simp only [simulate_pid_with_metrics, hresp, hinfo, hl,
          Except.ok.injEq, Prod.mk.injEq] at hsim
        obtain ⟨htm, hrs, hd⟩ := hsim
        subst hrs
        rw [hl] at hlast
        injection hlast with hv
        subst hv
        subst hd
        simp [dictGet]

/-- Claim C3 witness: a concrete successful call carries
`SteadyStateError = 1 - 1` for the response `[1]`. -/
theorem steady_state_error_both_paths_witness :
    dictGet [("SteadyStateError", (1 : ℚ) - 1)] "SteadyStateError" =
      some (1 - 1) :=
  steady_state_error_both_paths oracleOkEmptyW 0 0 0 plantW [0] [0] [1]
    [("SteadyStateError", 1 - 1)] 1 rfl rfl

/-- Claim C4: when all three gains are zero the system simulated is the
plant itself with no feedback composition, and the returned time and
response arrays are exactly the plant's own open-loop step response on
the given grid. -/
theorem open_loop_when_all_gains_zero (lib : SimOracle) (Kp Ki Kd : ℚ)
    (Gs : TransferFunction) (t : List ℚ)
    (hKp : Kp = 0) (hKi : Ki = 0) (hKd : Kd = 0) :
    system_to_sim Kp Ki Kd Gs = Gs ∧
    ∀ time response info,
      simulate_pid_with_metrics lib Kp Ki Kd Gs t = .ok (time, response, info) →
      lib.stepResponse Gs t = .ok (time, response) := by
  subst hKp
  subst hKi
  subst hKd
  have hsys : system_to_sim 0 0 0 Gs = Gs := by
    simp [system_to_sim, build_controller]
  refine ⟨hsys, ?_⟩
  intro time response info hsim
  cases hresp : lib.stepResponse (system_to_sim 0 0 0 Gs) t with
  | error e => simp [simulate_pid_with_metrics, hresp] at hsim
  | ok p =>
    obtain ⟨tm, rs⟩ := p
    have hresp' : lib.stepResponse Gs t = .ok (tm, rs) := by
      rw [← hsys]
      exact hresp
    cases hinfo : lib.step_info (system_to_sim 0 0 0 Gs) t (2 / 100) with
    | ok d =>
      cases hl : rs.getLast? with
      | none => simp [simulate_pid_with_metrics, hresp, hinfo, hl] at hsim
      | some fv =>
        simp only [simulate_pid_with_metrics, hresp, hinfo, hl,
          Except.ok.injEq, Prod.mk.injEq] at hsim
        obtain ⟨htm, hrs, _⟩ := hsim
        rw [htm, hrs] at hresp'
        exact hresp'
    | error e =>
      cases hl : rs.getLast? with
      | none => simp [simulate_pid_with_metrics, hresp, hinfo, hl] at hsim
      | some fv =>
        simp only [simulate_pid_with_metrics, hresp, hinfo, hl,
          Except.ok.injEq, Prod.mk.injEq] at hsim
        obtain ⟨htm, hrs, _⟩ := hsim
        rw [htm, hrs] at hresp'
        exact hresp'

/-- Claim C4 witness: at all-zero gains the concrete system simulated is
the example plant itself and the returned curve is the oracle's open-loop
response. -/
theorem open_loop_when_all_gains_zero_witness :
    system_to_sim 0 0 0 plantW = plantW ∧
    oracleOkEmptyW.stepResponse plantW [0] = .ok ([0], [1]) := by
  have h := open_loop_when_all_gains_zero oracleOkEmptyW 0 0 0 plantW [0]
    rfl rfl rfl
  exact ⟨h.1, h.2 [0] [1] [("SteadyStateError", 1 - 1)] rfl⟩

/-- Claim C6: whenever simulate returns, and the solver's `step_info`
output (when it succeeds) carries the `Overshoot`, `SettlingTime` and
`RiseTime` keys, the returned metrics record contains all four keys
`Overshoot`, `SettlingTime`, `RiseTime` and `SteadyStateError`, on both
the primary and the fallback path. -/
theorem metrics_all_keys (lib : SimOracle) (Kp Ki Kd : ℚ)
    (Gs : TransferFunction) (t time response : List ℚ)
    (info : List (String × ℚ))
    (hkeys : ∀ sys tgrid th d, lib.step_info sys tgrid th = .ok d →
      (dictGet d "Overshoot").isSome ∧ (dictGet d "SettlingTime").isSome ∧
        (dictGet d "RiseTime").isSome)
    (hsim : simulate_pid_with_metrics lib Kp Ki Kd Gs t = .ok (time, response, info)) :
    (dictGet info "Overshoot").isSome ∧ (dictGet info "SettlingTime").isSome ∧
      (dictGet info "RiseTime").isSome ∧
      (dictGet info "SteadyStateError").isSome := by
  cases hresp : lib.stepResponse (system_to_sim Kp Ki Kd Gs) t with
  | error e => simp [simulate_pid_with_metrics, hresp] at hsim
  | ok p =>
    obtain ⟨tm, rs⟩ := p
    cases hinfo : lib.step_info (system_to_sim Kp Ki Kd Gs) t (2 / 100) with
    | ok d =>
      cases hl : rs.getLast? with
      | none => simp [simulate_pid_with_metrics, hresp, hinfo, hl] at hsim
      | some fv =>
        simp only [simulate_pid_with_metrics, hresp, hinfo, hl,
          Except.ok.injEq, Prod.mk.injEq] at hsim
        obtain ⟨htm, hrs, hd⟩ := hsim
        subst hd
        obtain ⟨ho, hs, hr⟩ := hkeys _ _ _ _ hinfo
        have hne1 : ("Overshoot" : String) ≠ "SteadyStateError" := by decide
        have hne2 : ("SettlingTime" : String) ≠ "SteadyStateError" := by decide
        have hne3 : ("RiseTime" : String) ≠ "SteadyStateError" := by decide
        refine ⟨?_, ?_, ?_, ?_⟩
        · rw [dictGet_dictInsert_ne _ _ _ _ hne1]
          exact ho
        · rw [dictGet_dictInsert_ne _ _ _ _ hne2]
          exact hs
        · rw [dictGet_dictInsert_ne _ _ _ _ hne3]
          exact hr
        · rw [dictGet_dictInsert_same]
          rfl
    | error e =>
      cases hl : rs.getLast? with
      | none => simp [simulate_pid_with_metrics, hresp, hinfo, hl] at hsim
      | some fv =>
        simp only [simulate_pid_with_metrics, hresp, hinfo, hl,
          Except.ok.injEq, Prod.mk.injEq] at hsim
        obtain ⟨htm, hrs, hd⟩ := hsim
        subst hd
        refine ⟨?_, ?_, ?_, ?_⟩ <;> simp [dictGet]

/-- Claim C6 witness: a concrete successful call with the usual solver
keys returns a record holding all four required keys. -/
theorem metrics_all_keys_witness :
    (dictGet [("RiseTime", (1 : ℚ)), ("SettlingTime", 2), ("Overshoot", 3),
      ("Peak", 4), ("SteadyStateError", 1 - 1)] "Overshoot").isSome ∧
    (dictGet [("RiseTime", (1 : ℚ)), ("SettlingTime", 2), ("Overshoot", 3),
      ("Peak", 4), ("SteadyStateError", 1 - 1)] "SettlingTime").isSome ∧
    (dictGet [("RiseTime", (1 : ℚ)), ("SettlingTime", 2), ("Overshoot", 3),
      ("Peak", 4), ("SteadyStateError", 1 - 1)] "RiseTime").isSome ∧
    (dictGet [("RiseTime", (1 : ℚ)), ("SettlingTime", 2), ("Overshoot", 3),
      ("Peak", 4), ("SteadyStateError", 1 - 1)] "SteadyStateError").isSome :=
  metrics_all_keys oracleOkW 0 0 0 plantW [0] [0] [1]
    [("RiseTime", 1), ("SettlingTime", 2), ("Overshoot", 3), ("Peak", 4),
      ("SteadyStateError", 1 - 1)]
    (by
      intro sys tgrid th d h
      cases h
      decide)
    rfl

/-- Claim C10: the shape of the metrics record differs between paths:
when `step_info` fails, the record is exactly the four-entry fallback
dictionary (key list `SteadyStateError, Overshoot, SettlingTime,
RiseTime` and nothing else); when `step_info` succeeds with dictionary
`d`, the record is `d` with `SteadyStateError` assigned, so it carries
every key of `d` (unchanged, e.g. peak-related entries) plus
`SteadyStateError`. -/
theorem metrics_record_key_shape (lib : SimOracle) (Kp Ki Kd : ℚ)
    (Gs : TransferFunction) (t time response : List ℚ)
    (info : List (String × ℚ)) (v : ℚ)
    (hsim : simulate_pid_with_metrics lib Kp Ki Kd Gs t = .ok (time, response, info))
    (hlast : response.getLast? = some v) :
    (∀ e, lib.step_info (system_to_sim Kp Ki Kd Gs) t (2 / 100) = .error e →
      info = [("SteadyStateError", 1 - v), ("Overshoot", 0),
        ("SettlingTime", 0), ("RiseTime", 0)] ∧
      info.map Prod.fst =
        ["SteadyStateError", "Overshoot", "SettlingTime", "RiseTime"]) ∧
    (∀ d, lib.step_info (system_to_sim Kp Ki Kd Gs) t (2 / 100) = .ok d →
      info = dictInsert d "SteadyStateError" (1 - v) ∧
      (∀ k, k ≠ "SteadyStateError" → dictGet info k = dictGet d k) ∧
      dictGet info "SteadyStateError" = some (1 - v)) := by
  cases hresp : lib.stepResponse (system_to_sim Kp Ki Kd Gs) t with
  | error e => simp [simulate_pid_with_metrics, hresp] at hsim
  | ok p =>
    obtain ⟨tm, rs⟩ := p
    cases hinfo : lib.step_info (system_to_sim Kp Ki Kd Gs) t (2 / 100) with
    | ok d =>
      cases hl : rs.getLast? with
      | none => simp [simulate_pid_with_metrics, hresp, hinfo, hl] at hsim
      | some fv =>
        simp only [simulate_pid_with_metrics, hresp, hinfo, hl,
          Except.ok.injEq, Prod.mk.injEq] at hsim
        obtain ⟨htm, hrs, hd⟩ := hsim
        subst hrs
        rw [hl] at hlast
        injection hlast with hv
        subst hv
        subst hd
        constructor
        · intro e he
          exact Except.noConfusion he
        · intro d' hd'
          injection hd' with hdd
          subst hdd
          exact ⟨rfl, fun k hk => dictGet_dictInsert_ne _ _ _ _ hk,
            dictGet_dictInsert_same _ _ _⟩
    | error e0 =>
      cases hl : rs.getLast? with
      | none => simp [simulate_pid_with_metrics, hresp, hinfo, hl] at hsim
      | some fv =>
        simp only [simulate_pid_with_metrics, hresp, hinfo, hl,
          Except.ok.injEq, Prod.mk.injEq] at hsim
        obtain ⟨htm, hrs, hd⟩ := hsim
        subst hrs
        rw [hl] at hlast
        injection hlast with hv
        subst hv
        subst hd
        constructor
        · intro e he
          exact ⟨rfl, rfl⟩
        · intro d' hd'
          exact Except.noConfusion hd'

/-- Claim C10 witness: on a concrete primary-path call the returned
record is the solver dictionary (rise time, settling time, overshoot and
a peak entry) with `SteadyStateError` appended. -/
theorem metrics_record_key_shape_witness :
    ([("RiseTime", (1 : ℚ)), ("SettlingTime", 2), ("Overshoot", 3),
      ("Peak", 4), ("SteadyStateError", 1 - 1)] : List (String × ℚ)) =
      dictInsert [("RiseTime", 1), ("SettlingTime", 2), ("Overshoot", 3),
        ("Peak", 4)] "SteadyStateError" (1 - 1) ∧
    dictGet [("RiseTime", (1 : ℚ)), ("SettlingTime", 2), ("Overshoot", 3),
      ("Peak", 4), ("SteadyStateError", 1 - 1)] "SteadyStateError" =
      some (1 - 1) := by
  have h := (metrics_record_key_shape oracleOkW 0 0 0 plantW [0] [0] [1]
    [("RiseTime", 1), ("SettlingTime", 2), ("Overshoot", 3), ("Peak", 4),
      ("SteadyStateError", 1 - 1)] 1 rfl rfl).2
    [("RiseTime", 1), ("SettlingTime", 2), ("Overshoot", 3), ("Peak", 4)] rfl
  exact ⟨h.1, h.2.2⟩

/-- Claim C5: when a controller is built (some gain nonzero), the system
simulated is the unity-negative-feedback reduction of the product of the
controller and the plant, and pointwise on the frequency variable its
rational value is `(C·G) / (1 + C·G)`. -/
theorem closed_loop_composition (Kp Ki Kd : ℚ) (Gs Cs : TransferFunction)
    (hC : build_controller Kp Ki Kd = some Cs) (s : ℚ)
    (hcd : evalPoly Cs.den s ≠ 0) (hgd : evalPoly Gs.den s ≠ 0)
    (hcl : 1 + evalPoly Cs.num s / evalPoly Cs.den s *
      (evalPoly Gs.num s / evalPoly Gs.den s) ≠ 0) :
    system_to_sim Kp Ki Kd Gs = feedback (tfmul Cs Gs) one ∧
    evalPoly (system_to_sim Kp Ki Kd Gs).num s /
        evalPoly (system_to_sim Kp Ki Kd Gs).den s =
      evalPoly Cs.num s / evalPoly Cs.den s *
          (evalPoly Gs.num s / evalPoly Gs.den s) /
        (1 + evalPoly Cs.num s / evalPoly Cs.den s *
          (evalPoly Gs.num s / evalPoly Gs.den s)) := by
  have hsys : system_to_sim Kp Ki Kd Gs = feedback (tfmul Cs Gs) one := by
    unfold system_to_sim
    rw [hC]
  refine ⟨hsys, ?_⟩
  rw [hsys]
  have hone : evalPoly one.num s = 1 := by
    simp [one, tf, evalPoly]
  have honed : evalPoly one.den s = 1 := by
    simp [one, tf, evalPoly]
  have hnum : evalPoly (feedback (tfmul Cs Gs) one).num s
      = evalPoly Cs.num s * evalPoly Gs.num s := by
    show evalPoly (polyMul (polyMul Cs.num Gs.num) one.den) s = _
    rw [evalPoly_polyMul, evalPoly_polyMul, honed, mul_one]
  have hden : evalPoly (feedback (tfmul Cs Gs) one).den s
      = evalPoly Cs.den s * evalPoly Gs.den s
        + evalPoly Cs.num s * evalPoly Gs.num s := by
    show evalPoly (polyAdd (polyMul (polyMul Cs.den Gs.den) one.den)
      (polyMul (polyMul Cs.num Gs.num) one.num)) s = _
    rw [evalPoly_polyAdd, evalPoly_polyMul, evalPoly_polyMul,
      evalPoly_polyMul, evalPoly_polyMul, hone, honed, mul_one, mul_one]
  rw [hnum, hden]
  have hdgd : evalPoly Cs.den s * evalPoly Gs.den s ≠ 0 := mul_ne_zero hcd hgd
  have hden2 : evalPoly Cs.den s * evalPoly Gs.den s
      + evalPoly Cs.num s * evalPoly Gs.num s ≠ 0 := by
    have hfact : evalPoly Cs.den s * evalPoly Gs.den s
        + evalPoly Cs.num s * evalPoly Gs.num s
        = evalPoly Cs.den s * evalPoly Gs.den s *
          (1 + evalPoly Cs.num s / evalPoly Cs.den s *
            (evalPoly Gs.num s / evalPoly Gs.den s)) := by
      field_simp
    rw [hfact]
    exact mul_ne_zero hdgd hcl
  field_simp

/-- Claim C5 witness: at gains `(1, 0, 0)` with the example plant,
evaluated at `s = 1`, the closed-loop value is
`(1 · 5/22) / (1 + 1 · 5/22)`. -/
theorem closed_loop_composition_witness :
    system_to_sim 1 0 0 plantW = feedback (tfmul (tf [1] [1]) plantW) one ∧
    evalPoly (system_to_sim 1 0 0 plantW).num 1 /
        evalPoly (system_to_sim 1 0 0 plantW).den 1 =
      evalPoly (tf [1] [1]).num 1 / evalPoly (tf [1] [1]).den 1 *
          (evalPoly plantW.num 1 / evalPoly plantW.den 1) /
        (1 + evalPoly (tf [1] [1]).num 1 / evalPoly (tf [1] [1]).den 1 *
          (evalPoly plantW.num 1 / evalPoly plantW.den 1)) :=
  closed_loop_composition 1 0 0 plantW (tf [1] [1]) (by decide) 1
    (by norm_num [evalPoly, tf])
    (by norm_num [evalPoly, plantW, tf])
    (by norm_num [evalPoly, plantW, tf])

end PIDSim
